import Mathlib

/-!
# Verification of the dogechain-bubblemaps analytics backend

A shallow embedding, in Lean 4, of the trending/popularity aggregation and
collaborative-filtering recommendation core of the `dogechain-bubblemaps-api`
repository, together with theorems settling the specification claims about it.

Each definition is translated directly from the TypeScript/SQL source file it
names in its doc comment.  Database tables are modelled as Lean lists of rows,
SQL `ORDER BY` as a sort with a total preorder, timestamps as integers
(milliseconds), JavaScript numbers reaching SQL as `Rat`, and fallible
collaborators (the Neon Postgres store, JSON body parsing) as `Except`/`Option`
parameters of the handler functions.
-/

/-! ## Shared validation helpers

The routes validate session ids and addresses with JavaScript regexes,
expressed here over the string's character list.  Note that two distinct
address regexes occur in the sources: the trending-log route's
`/^0x[a-fA-F0-9]{40}$/` (literal lowercase `0x`, both-case digits) and the
analytics routes' `/^0x[a-f0-9]{40}$/i`, whose `/i` flag also
case-insensitivises the literal, so an uppercase `0X` prefix matches too.
-/

/-- A hexadecimal digit, case-insensitive (character class `[a-fA-F0-9]`). -/
def isHexCharCI (c : Char) : Bool :=
  (('0' ≤ c && c ≤ '9') || ('a' ≤ c && c ≤ 'f') || ('A' ≤ c && c ≤ 'F'))

/-- The session-id regex `/^[a-f0-9]{64}$/i` used by
`src/app/api/analytics/search/route.ts` and the click-event route. -/
def isSessionId (s : String) : Bool :=
  s.data.length == 64 && s.data.all isHexCharCI

/-- The trending-log route's address regex `/^0x[a-fA-F0-9]{40}$/`: the
`0x` literal is matched case-sensitively. -/
def isEthAddressCI (s : String) : Bool :=
  match s.data with
  | '0' :: 'x' :: rest => rest.length == 40 && rest.all isHexCharCI
  | _ => false

/-- The analytics routes' address regex `/^0x[a-f0-9]{40}$/i`: the `/i`
flag makes the whole pattern case-insensitive, the `0x` literal included,
so both `0x` and `0X` prefixes are accepted. -/
def isEthAddressFullCI (s : String) : Bool :=
  match s.data with
  | '0' :: c :: rest =>
    (c == 'x' || c == 'X') && rest.length == 40 && rest.all isHexCharCI
  | _ => false

/-! ## Popularity Aggregator: `POST /api/interactions` (src/unnamed/part_003)

The route inserts a `token_interactions` row and then runs
`UPDATE learned_tokens SET popularity_score = LEAST(100, popularity_score + inc)`
when the interaction kind carries a positive score increase.
-/

/-- Interaction kinds accepted by the route (`validTypes`). -/
inductive InteractionType where
  | search
  | click
  | select
deriving DecidableEq

/-- Score increase per interaction kind, from the `if`/`else if` chain:
`click` → 3, `select` → 5, `search` → 0. -/
def scoreIncrease : InteractionType → Nat
  | .click => 3
  | .select => 5
  | .search => 0

/-- The popularity-score update.  The route only issues the `UPDATE` when
`scoreIncrease > 0`; when it does, the new score is
`LEAST(100, popularity_score + scoreIncrease)`. -/
def applyPopularity (old : Nat) (t : InteractionType) : Nat :=
  let inc := scoreIncrease t
  if 0 < inc then min 100 (old + inc) else old

/-- Score after a sequence of `n` `select` interactions starting from a fresh
aggregate row (the ensure-step inserts `popularity_score = 0`). -/
def selectScoreAfter : Nat → Nat
  | 0 => 0
  | n + 1 => applyPopularity (selectScoreAfter n) .select

/-! ## Token-popularity upsert: `POST /api/trending/popularity`
(src/unnamed/part_003, second route)

`INSERT INTO token_popularity ... VALUES (addr, appeared ? 1 : 0,
wasClicked ? 1 : 0, ts, ts, NOW()) ON CONFLICT (token_address) DO UPDATE SET
search_count = search_count + (appeared ? 1 : 0), click_count = click_count +
(wasClicked ? 1 : 0), last_searched = CASE WHEN appeared THEN ts ELSE
last_searched END, last_clicked = CASE WHEN wasClicked THEN ts ELSE
last_clicked END, updated_at = NOW()`.
-/

/-- A `token_popularity` row. -/
structure PopRow where
  searchCount : Nat
  clickCount : Nat
  lastSearched : Option Int
  lastClicked : Option Int
  updatedAt : Int
deriving DecidableEq

/-- The request body of `POST /api/trending/popularity`. -/
structure PopUpdate where
  tokenAddress : String
  appearedInResults : Bool
  wasClicked : Bool
  timestamp : Int
deriving DecidableEq

/-- The upsert statement, as a function of the existing row (if any).
`none` means no row with this `token_address` exists yet, so the `VALUES`
branch runs; `some r` means the `ON CONFLICT ... DO UPDATE` branch runs. -/
def upsertTokenPopularity (existing : Option PopRow) (b : PopUpdate)
    (now : Int) : PopRow :=
  match existing with
  | none =>
    { searchCount := if b.appearedInResults then 1 else 0
      clickCount := if b.wasClicked then 1 else 0
      lastSearched := some b.timestamp
      lastClicked := some b.timestamp
      updatedAt := now }
  | some r =>
    { searchCount := r.searchCount + (if b.appearedInResults then 1 else 0)
      clickCount := r.clickCount + (if b.wasClicked then 1 else 0)
      lastSearched := if b.appearedInResults then some b.timestamp else r.lastSearched
      lastClicked := if b.wasClicked then some b.timestamp else r.lastClicked
      updatedAt := now }

/-! ### Claims C1 and C7 -/

/-- C1: for an interaction on a token whose aggregate row exists (score within
the clamped range), the score deltas are +3 for `click`, +5 for `select`,
+0 for `search`, the new score is `min 100 (old + delta)`, and `n` `select`
interactions from score 0 leave the score at exactly `min 100 (5 * n)`. -/
theorem C1_interaction_score_clamp (old : Nat) (t : InteractionType) (n : Nat)
    (hold : old ≤ 100) :
    applyPopularity old t = min 100 (old + scoreIncrease t) ∧
    scoreIncrease .click = 3 ∧ scoreIncrease .select = 5 ∧
    scoreIncrease .search = 0 ∧
    selectScoreAfter n = min 100 (5 * n) := by
  refine ⟨?_, rfl, rfl, rfl, ?_⟩
  · cases t
    all_goals simp [applyPopularity, scoreIncrease]
    all_goals omega
  · induction n with
    | zero => simp [selectScoreAfter]
    | succ k ih =>
      rw [selectScoreAfter, ih]
      simp [applyPopularity, scoreIncrease]
      all_goals omega

theorem C1_interaction_score_clamp_witness :
    applyPopularity 98 .select = min 100 (98 + scoreIncrease .select) ∧
    selectScoreAfter 21 = min 100 (5 * 21) :=
  ⟨(C1_interaction_score_clamp 98 .select 21 (by decide)).1,
   (C1_interaction_score_clamp 98 .select 21 (by decide)).2.2.2.2⟩

/-- C7 counterexample: on a first insert (no existing row) with
`appearedInResults = false`, `last_searched` is nevertheless set to the
supplied timestamp by the `VALUES` branch, so "lastSearchedAt is set to the
supplied timestamp **iff** `appearedInResults` is true and is otherwise left
unchanged" fails: the column does not keep its prior (absent/NULL) state. -/
theorem C7_upsert_insert_counterexample :
    (upsertTokenPopularity none
      { tokenAddress := "0x1111111111111111111111111111111111111111"
        appearedInResults := false, wasClicked := true,
        timestamp := 1000 } 5).lastSearched = some 1000 ∧
    (upsertTokenPopularity none
      { tokenAddress := "0x1111111111111111111111111111111111111111"
        appearedInResults := false, wasClicked := true,
        timestamp := 1000 } 5).lastSearched ≠ none := by
  constructor <;> decide

/-- C7 (amended): on the conflict (existing-row) branch the claimed iff holds —
`last_searched`/`last_clicked` are set to the supplied timestamp exactly when
the respective flag is true and are otherwise unchanged, and the counters are
incremented by 1 exactly when the respective flag is true; on the first-insert
branch the counters are initialised to the flag values but **both** timestamp
columns are set to the supplied timestamp regardless of the flags. -/
theorem C7_upsert_flag_semantics (r : PopRow) (b : PopUpdate) (now : Int) :
    ((upsertTokenPopularity (some r) b now).lastSearched =
        if b.appearedInResults then some b.timestamp else r.lastSearched) ∧
    ((upsertTokenPopularity (some r) b now).lastClicked =
        if b.wasClicked then some b.timestamp else r.lastClicked) ∧
    ((upsertTokenPopularity (some r) b now).searchCount =
        r.searchCount + if b.appearedInResults then 1 else 0) ∧
    ((upsertTokenPopularity (some r) b now).clickCount =
        r.clickCount + if b.wasClicked then 1 else 0) ∧
    ((upsertTokenPopularity none b now).searchCount =
        if b.appearedInResults then 1 else 0) ∧
    ((upsertTokenPopularity none b now).clickCount =
        if b.wasClicked then 1 else 0) ∧
    (upsertTokenPopularity none b now).lastSearched = some b.timestamp ∧
    (upsertTokenPopularity none b now).lastClicked = some b.timestamp := by
  refine ⟨rfl, rfl, rfl, rfl, rfl, rfl, rfl, rfl⟩

/-! ## Trending Ranker fast path: `GET /api/trending`
(src/app/api/trending/route.ts)

The handler validates `type`, clamps `limit` with `Math.min(limit, 100)`, and
reads the materialised `trending_searches` aggregate with
`ORDER BY search_count DESC, updated_at DESC LIMIT limit`
(plus `WHERE asset_type = type` unless `type = 'ALL'`).  Each selected row is
mapped to a response asset with `rank = index + 1`,
`velocity_score = search_count`, `recent_searches = search_count` and
`previous_searches = 0`.  On any storage error the `catch` branch answers
HTTP 200 with `assets: []` and `cached: false`.
-/

/-- A `trending_searches` aggregate row. -/
structure TrendRow where
  address : String
  assetType : String
  symbol : Option String
  name : Option String
  searchCount : Nat
  createdAt : Int
  updatedAt : Int
deriving DecidableEq

/-- The `ORDER BY search_count DESC, updated_at DESC` preorder: `a` may come
before `b` when `a` has the larger search count, or equal counts and the
more recent `updated_at`. -/
def trendOrder (a b : TrendRow) : Prop :=
  b.searchCount < a.searchCount ∨
    (a.searchCount = b.searchCount ∧ b.updatedAt ≤ a.updatedAt)

instance : DecidableRel trendOrder := fun a b => by
  unfold trendOrder; infer_instance

instance : IsTotal TrendRow trendOrder :=
  ⟨fun a b => by unfold trendOrder; omega⟩

instance : IsTrans TrendRow trendOrder :=
  ⟨fun a b c hab hbc => by unfold trendOrder at *; omega⟩

/-- The SQL query of the fast path: optional `asset_type` filter, sort, and
`LIMIT`. -/
def queryTrending (db : List TrendRow) (type : String) (lim : Nat) :
    List TrendRow :=
  let rows := if type == "ALL" then db
              else db.filter (fun r => r.assetType == type)
  (List.insertionSort trendOrder rows).take lim

/-- A response entry of `GET /api/trending` (interface `TrendingAsset`). -/
structure TrendingAsset where
  address : String
  symbol : String
  name : String
  type : String
  velocityScore : Nat
  totalSearches : Nat
  recentSearches : Nat
  previousSearches : Nat
  rank : Nat
deriving DecidableEq

/-- The `results.map((row, index) => ...)` projection, with the SQL-side
`COALESCE(symbol, 'TOKEN')` and `COALESCE(name, 'Token')` defaults and
`rank = index + 1`. -/
def rowToAsset (r : TrendRow) (rank : Nat) : TrendingAsset :=
  { address := r.address
    symbol := r.symbol.getD "TOKEN"
    name := r.name.getD "Token"
    type := r.assetType
    velocityScore := r.searchCount
    totalSearches := r.searchCount
    recentSearches := r.searchCount
    previousSearches := 0
    rank := rank }

/-- The asset list assembled by the route on the fast path. -/
def getTrendingAssets (db : List TrendRow) (type : String) (lim : Nat) :
    List TrendingAsset :=
  (queryTrending db type lim).enum.map (fun p => rowToAsset p.2 (p.1 + 1))

/-- The JSON response of `GET /api/trending` (interface
`TrendingApiResponse` plus the HTTP status and `Cache-Control` header). -/
structure TrendingResponse where
  status : Nat
  error : Option String
  assets : List TrendingAsset
  cached : Bool
  stale : Option Bool
  timestamp : Int
  cacheControl : Option String
deriving DecidableEq

/-- The `GET /api/trending` handler.  `type` is the query parameter after
`.toUpperCase()` (default `'ALL'`), `lim` the parsed `limit` parameter
(default 20) before the `Math.min(_, 100)` clamp, `useCache` the value of
`searchParams.get('cache') !== 'false'`, `db` the outcome of the Neon query,
and `now` the handler's clock reading. -/
def trendingGET (type : String) (lim : Nat) (useCache : Bool)
    (db : Except Unit (List TrendRow)) (now : Int) : TrendingResponse :=
  if !(type == "TOKEN" || type == "NFT" || type == "ALL") then
    { status := 400, error := some "Invalid type parameter. Must be TOKEN, NFT, or ALL"
      assets := [], cached := false, stale := none, timestamp := now
      cacheControl := none }
  else
    match db with
    | .error _ =>
      { status := 200, error := none, assets := [], cached := false
        stale := none, timestamp := now, cacheControl := none }
    | .ok rows =>
      { status := 200, error := none
        assets := getTrendingAssets rows type (min lim 100)
        cached := useCache, stale := some false, timestamp := now
        cacheControl := some (if useCache then
          "public, max-age=300, stale-while-revalidate=600"
        else "no-cache, no-store, must-revalidate") }

/-! ### Claims C4, C5 and C9 -/

/-- C4: whenever the data source fails, the trending endpoint answers
HTTP 200 with an empty asset list and `cached: false` — the error is never
surfaced as a 500. -/
theorem C4_trending_soft_failure (type : String) (lim : Nat) (useCache : Bool)
    (e : Unit) (now : Int)
    (hvalid : type = "TOKEN" ∨ type = "NFT" ∨ type = "ALL") :
    (trendingGET type lim useCache (.error e) now).status = 200 ∧
    (trendingGET type lim useCache (.error e) now).assets = [] ∧
    (trendingGET type lim useCache (.error e) now).cached = false ∧
    (trendingGET type lim useCache (.error e) now).status ≠ 500 := by
  rcases hvalid with h | h | h <;> subst h <;>
    exact ⟨rfl, rfl, rfl, fun hc => by simp [trendingGET] at hc⟩

theorem C4_trending_soft_failure_witness :
    (trendingGET "ALL" 20 true (.error ()) 17).status = 200 ∧
    (trendingGET "ALL" 20 true (.error ()) 17).assets = [] ∧
    (trendingGET "ALL" 20 true (.error ()) 17).cached = false ∧
    (trendingGET "ALL" 20 true (.error ()) 17).status ≠ 500 :=
  C4_trending_soft_failure "ALL" 20 true () 17 (by decide)

/-- C5: on the fast path the returned assets are exactly the
`trending_searches` rows — filtered to the requested asset type when it is
`TOKEN` or `NFT` — ordered by `search_count` descending with ties broken by
`updated_at` descending, truncated to the (clamped) limit, with ranks
assigned `1..n` in that order. -/
theorem C5_trending_fast_path_order (db : List TrendRow) (type : String)
    (lim : Nat) :
    List.Pairwise trendOrder (queryTrending db type lim) ∧
    (∀ r ∈ queryTrending db type lim,
        r ∈ db ∧ (type ≠ "ALL" → r.assetType = type)) ∧
    (queryTrending db type lim).length ≤ lim ∧
    ((if type == "ALL" then db
        else db.filter (fun r => r.assetType == type)).length ≤ lim →
      (queryTrending db type lim).Perm
        (if type == "ALL" then db
          else db.filter (fun r => r.assetType == type))) ∧
    getTrendingAssets db type lim =
      (queryTrending db type lim).enum.map (fun p => rowToAsset p.2 (p.1 + 1)) ∧
    (getTrendingAssets db type lim).map TrendingAsset.rank =
      List.range' 1 (queryTrending db type lim).length := by
  refine ⟨?_, ?_, ?_, ?_, rfl, ?_⟩
  · exact (List.sorted_insertionSort trendOrder _).sublist (List.take_sublist _ _)
  · intro r hr
    have h1 : r ∈ List.insertionSort trendOrder
        (if type == "ALL" then db
          else db.filter (fun t => t.assetType == type)) :=
      List.mem_of_mem_take hr
    have h2 := (List.perm_insertionSort trendOrder _).subset h1
    cases hb : (type == "ALL") with
    | true =>
      rw [hb] at h2
      simp only [if_pos] at h2
      have heq : type = "ALL" := by simpa using hb
      exact ⟨h2, fun hne => absurd heq hne⟩
    | false =>
      rw [hb] at h2
      simp only [Bool.false_eq_true, if_neg, not_false_eq_true] at h2
      rcases List.mem_filter.mp h2 with ⟨hmem, heq⟩
      exact ⟨hmem, fun _ => by simpa using heq⟩
  · exact List.length_take_le lim _
  · intro hlen
    have hlen' : (List.insertionSort trendOrder
        (if type == "ALL" then db
          else db.filter (fun r => r.assetType == type))).length ≤ lim := by
      rwa [(List.perm_insertionSort trendOrder _).length_eq]
    have htake : queryTrending db type lim = List.insertionSort trendOrder
        (if type == "ALL" then db
          else db.filter (fun r => r.assetType == type)) :=
      List.take_of_length_le hlen'
    rw [htake]
    exact List.perm_insertionSort trendOrder _
  · show ((queryTrending db type lim).enum.map
        (fun p => rowToAsset p.2 (p.1 + 1))).map TrendingAsset.rank = _
    rw [List.map_map]
    have hcomp : (TrendingAsset.rank ∘ fun p : Nat × TrendRow => rowToAsset p.2 (p.1 + 1)) =
        (fun n => 1 + n) ∘ Prod.fst := by
      funext p
      simp [rowToAsset, Nat.add_comm]
    rw [hcomp, ← List.map_map, List.enum_map_fst, ← List.range'_eq_map_range]

/-- C9 counterexample: two `GET /api/trending` reads with identical parameters
issued inside the 5-minute TTL window (handler clock readings 0 and 1 ms)
against an unchanged store produce payloads that differ (the `timestamp` field
is recomputed per call), and the `cached` flag already reads `true` on the
first call — it merely echoes the `cache` query parameter, no in-process cache
exists on this route. -/
theorem C9_trending_cache_counterexample :
    (trendingGET "ALL" 20 true (.ok []) 0).timestamp ≠
      (trendingGET "ALL" 20 true (.ok []) 1).timestamp ∧
    trendingGET "ALL" 20 true (.ok []) 0 ≠ trendingGET "ALL" 20 true (.ok []) 1 ∧
    (trendingGET "ALL" 20 true (.ok []) 0).cached = true := by
  decide

/-- C9 (amended): the trending route keeps no in-process cache; on every
successful read — first or repeated — the response's `cached` flag simply
echoes whether the `cache` query parameter differs from `'false'`, the payload
carries the per-call clock reading, and byte-level response reuse within the
5-minute window is delegated to the HTTP `Cache-Control: public, max-age=300,
stale-while-revalidate=600` header. -/
theorem C9_cache_flag_echo (type : String) (lim : Nat) (useCache : Bool)
    (rows : List TrendRow) (now : Int)
    (hvalid : type = "TOKEN" ∨ type = "NFT" ∨ type = "ALL") :
    (trendingGET type lim useCache (.ok rows) now).cached = useCache ∧
    (trendingGET type lim useCache (.ok rows) now).timestamp = now ∧
    (trendingGET type lim useCache (.ok rows) now).cacheControl =
      some (if useCache then "public, max-age=300, stale-while-revalidate=600"
        else "no-cache, no-store, must-revalidate") := by
  rcases hvalid with h | h | h <;> subst h <;> exact ⟨rfl, rfl, rfl⟩

theorem C9_cache_flag_echo_witness :
    (trendingGET "ALL" 20 true (.ok []) 42).cached = true ∧
    (trendingGET "ALL" 20 true (.ok []) 42).timestamp = 42 ∧
    (trendingGET "ALL" 20 true (.ok []) 42).cacheControl =
      some (if true then "public, max-age=300, stale-while-revalidate=600"
        else "no-cache, no-store, must-revalidate") :=
  C9_cache_flag_echo "ALL" 20 true [] 42 (by decide)

/-! ## Fire-and-forget logging: `POST /api/trending/log`
(src/app/api/trending/route.ts, second route)

The outer `try` parses and validates the body; the upsert sits in an inner
`try` whose `catch` only logs, so a database failure still yields
`{success: true, logged: true}`.  The outer `catch` (e.g. an unparsable JSON
body) answers `{success: true, logged: false}` — both with HTTP 200.
-/

/-- The request body of `POST /api/trending/log` (`LogRequestBody`). -/
structure LogBody where
  address : String
  assetType : String
  symbol : Option String
  name : Option String
deriving DecidableEq

/-- Outcome of `POST /api/trending/log`: HTTP status, the `success` and
`logged` response fields, and whether the `trending_searches` upsert actually
committed (`wrote`). -/
structure LogResult where
  status : Nat
  success : Bool
  logged : Bool
  error : Option String
  wrote : Bool
deriving DecidableEq

/-- The `POST /api/trending/log` handler.  `body = none` models
`request.json()` throwing (caught by the outer `catch`); `db` is the outcome
of the `INSERT ... ON CONFLICT` statement, whose failure the inner `catch`
swallows. -/
def trendingLogPOST (body : Option LogBody) (db : Except Unit Unit) :
    LogResult :=
  match body with
  | none => { status := 200, success := true, logged := false, error := none
              wrote := false }
  | some b =>
    if b.address == "" then
      { status := 400, success := false, logged := false
        error := some "Address is required", wrote := false }
    else if !(b.assetType == "TOKEN" || b.assetType == "NFT") then
      { status := 400, success := false, logged := false
        error := some "assetType must be TOKEN or NFT", wrote := false }
    else if !(isEthAddressCI b.address) then
      { status := 400, success := false, logged := false
        error := some "Invalid Ethereum address format", wrote := false }
    else
      match db with
      | .ok _ => { status := 200, success := true, logged := true
                   error := none, wrote := true }
      | .error _ => { status := 200, success := true, logged := true
                      error := none, wrote := false }

/-! ### Claim C10 -/

/-- C10: a validated `POST /api/trending/log` request answers HTTP 200 with
`{success: true, logged: true}` even when the upsert fails — so `logged: true`
does not imply the counter row was written — while a failure before the upsert
(an unparsable body) yields `{success: true, logged: false}`, still 200. -/
theorem C10_log_swallows_db_error (b : LogBody) (db : Except Unit Unit)
    (haddr : isEthAddressCI b.address = true)
    (htype : b.assetType = "TOKEN" ∨ b.assetType = "NFT") :
    (trendingLogPOST (some b) db).status = 200 ∧
    (trendingLogPOST (some b) db).success = true ∧
    (trendingLogPOST (some b) db).logged = true ∧
    (db = .error () → (trendingLogPOST (some b) db).wrote = false) ∧
    trendingLogPOST none db =
      { status := 200, success := true, logged := false, error := none
        wrote := false } := by
  have hne : (b.address == "") = false := by
    cases hb : (b.address == "") with
    | true =>
      have : b.address = "" := by simpa using hb
      rw [this] at haddr
      simp [isEthAddressCI] at haddr
    | false => rfl
  have htype' : (b.assetType == "TOKEN" || b.assetType == "NFT") = true := by
    rcases htype with h | h <;> simp [h]
  cases db <;>
    simp [trendingLogPOST, hne, htype', haddr]

theorem C10_log_swallows_db_error_witness :
    (trendingLogPOST
      (some { address := "0x1111111111111111111111111111111111111111"
              assetType := "TOKEN", symbol := none, name := none })
      (.error ())).status = 200 ∧
    (trendingLogPOST
      (some { address := "0x1111111111111111111111111111111111111111"
              assetType := "TOKEN", symbol := none, name := none })
      (.error ())).logged = true ∧
    (trendingLogPOST
      (some { address := "0x1111111111111111111111111111111111111111"
              assetType := "TOKEN", symbol := none, name := none })
      (.error ())).wrote = false := by
  have h := C10_log_swallows_db_error
    { address := "0x1111111111111111111111111111111111111111"
      assetType := "TOKEN", symbol := none, name := none }
    (.error ()) (by decide) (Or.inl rfl)
  exact ⟨h.1, h.2.2.1, h.2.2.2.1 rfl⟩

/-! ## Event Recorder: `POST /api/analytics/search`
(src/app/api/analytics/search/route.ts) and `POST /api/analytics/click`
(src/unnamed/part_000)

Both routes validate the body and only then run a single `INSERT`.  JavaScript
falsiness of the required-field check is modelled per type: the empty string
for strings, `none` for a missing array, `0` for the numeric timestamp.  The
click route checks `typeof body.resultRank !== "number"`, so `resultRank` is
an `Option Rat`: `none` is a missing or non-numeric JSON value.
-/

/-- The body of `POST /api/analytics/search` (`SearchEventRequest`). -/
structure SearchReq where
  sessionId : String
  query : String
  results : Option (List String)
  resultCount : Int
  timestamp : Int
deriving DecidableEq

/-- The body of `POST /api/analytics/click` (`ClickEventRequest`). -/
structure ClickReq where
  sessionId : String
  query : String
  clickedAddress : String
  resultRank : Option Rat
  resultScore : Option Rat
  timeToClickMs : Option Rat
  timestamp : Int
deriving DecidableEq

/-- The search-event route: returns the HTTP status and whether the
`search_events` row was inserted. -/
def searchPOST (b : SearchReq) : Nat × Bool :=
  if b.sessionId == "" || b.query == "" || b.results == none || b.timestamp == 0 then
    (400, false)
  else if !(isSessionId b.sessionId) then (400, false)
  else if b.query.data.length < 2 || 500 < b.query.data.length then (400, false)
  else
    match b.results with
    | none => (400, false)
    | some rs =>
      if 100 < rs.length then (400, false)
      else if rs.all isEthAddressFullCI then (200, true)
      else (400, false)

/-- The click-event route: returns the HTTP status and whether the
`click_events` row was inserted. -/
def clickPOST (b : ClickReq) : Nat × Bool :=
  if b.sessionId == "" || b.query == "" || b.clickedAddress == "" then
    (400, false)
  else if !(isSessionId b.sessionId) then (400, false)
  else if b.query.data.length < 2 || 500 < b.query.data.length then (400, false)
  else if !(isEthAddressFullCI b.clickedAddress) then (400, false)
  else
    match b.resultRank with
    | none => (400, false)
    | some q => if q < 0 || 99 < q then (400, false) else (200, true)

/-! ### Claim C8 -/

/-- The rational one half, i.e. the JSON number `0.5`, constructed without
normalisation so that kernel reduction stays available. -/
def halfRank : Rat := ⟨1, 2, by decide, by norm_num⟩

/-- C8 counterexample: a click event whose `resultRank` is the JSON number
`0.5` — not an integer, yet inside `[0, 99]` — passes the route's
`typeof === "number" && 0 <= rank && rank <= 99` validation: the row is
inserted and the response is HTTP 200, where the claim demands a 400 and no
write.  (`halfRank.den = 2` certifies that `0.5` is not an integer.) -/
theorem C8_result_rank_counterexample :
    clickPOST
      { sessionId := "aaaaaaaaaaaaaaaaaaaaaaaaaaaaaaaaaaaaaaaaaaaaaaaaaaaaaaaaaaaaaaaa"
        query := "doge"
        clickedAddress := "0x1111111111111111111111111111111111111111"
        resultRank := some halfRank, resultScore := none
        timeToClickMs := none, timestamp := 1 } = (200, true) ∧
    halfRank.den = 2 ∧ (0 : Rat) ≤ halfRank ∧ halfRank ≤ 99 := by
  refine ⟨by decide, by decide, by decide, by decide⟩


/-- A search request can only be answered 400-without-write or
200-with-write. -/
lemma searchPOST_cases (s : SearchReq) :
    searchPOST s = (400, false) ∨ searchPOST s = (200, true) := by
  unfold searchPOST
  repeat' split
  all_goals simp

/-- If the search route inserted the row, every validation passed. -/
lemma searchPOST_accept_valid (s : SearchReq)
    (h : searchPOST s = (200, true)) :
    isSessionId s.sessionId = true ∧
    2 ≤ s.query.data.length ∧ s.query.data.length ≤ 500 ∧
    ∀ rs, s.results = some rs → ∀ a ∈ rs, isEthAddressFullCI a = true := by
  unfold searchPOST at h
  split at h
  · exact absurd h (by decide)
  next h1 =>
  split at h
  next h2 => exact absurd h (by decide)
  next h2 =>
  split at h
  next h3 => exact absurd h (by decide)
  next h3 =>
  split at h
  next heq => exact absurd h (by decide)
  next rs heq =>
  split at h
  next h4 => exact absurd h (by decide)
  next h4 =>
  split at h
  next h5 =>
    simp only [Bool.or_eq_true, decide_eq_true_eq, not_or, not_lt,
      Bool.not_eq_true] at h2 h3
    refine ⟨by simpa using h2, h3.1, h3.2, ?_⟩
    intro rs' hrs' a ha
    rw [heq, Option.some.injEq] at hrs'
    subst hrs'
    exact List.all_eq_true.mp h5 a ha
  next h5 => exact absurd h (by decide)

/-- A click request can only be answered 400-without-write or
200-with-write. -/
lemma clickPOST_cases (c : ClickReq) :
    clickPOST c = (400, false) ∨ clickPOST c = (200, true) := by
  unfold clickPOST
  repeat' split
  all_goals simp

/-- If the click route inserted the row, every validation passed. -/
lemma clickPOST_accept_valid (c : ClickReq)
    (h : clickPOST c = (200, true)) :
    isSessionId c.sessionId = true ∧
    2 ≤ c.query.data.length ∧ c.query.data.length ≤ 500 ∧
    isEthAddressFullCI c.clickedAddress = true ∧
    c.resultRank ≠ none ∧
    ∀ q, c.resultRank = some q → 0 ≤ q ∧ q ≤ 99 := by
  unfold clickPOST at h
  split at h
  · exact absurd h (by decide)
  next h1 =>
  split at h
  next h2 => exact absurd h (by decide)
  next h2 =>
  split at h
  next h3 => exact absurd h (by decide)
  next h3 =>
  split at h
  next h4 => exact absurd h (by decide)
  next h4 =>
  split at h
  next heq => exact absurd h (by decide)
  next q heq =>
  split at h
  next h5 => exact absurd h (by decide)
  next h5 =>
    simp only [Bool.or_eq_true, decide_eq_true_eq, not_or, not_lt,
      Bool.not_eq_true] at h2 h3 h5
    refine ⟨by simpa using h2, h3.1, h3.2, by simpa using h4, ?_, ?_⟩
    · rw [heq]; exact Option.some_ne_none q
    · intro q' hq'
      rw [heq, Option.some.injEq] at hq'
      subst hq'
      exact ⟨h5.1, h5.2⟩

/-- C8 (amended): an event-recording request is answered with HTTP 400 and no
event row is written whenever the `sessionId` is not a 64-character hex
string, or the query length is outside `[2, 500]`, or an address fails the
`0x`-prefixed 40-hex-digit pattern, or — for clicks — `resultRank` is not a
**number** in `[0, 99]` (missing, non-numeric, or out of range; the route does
not check integrality). -/
theorem C8_validation_rejects (s : SearchReq) (c : ClickReq)
    (hs : isSessionId s.sessionId = false ∨
      s.query.data.length < 2 ∨ 500 < s.query.data.length ∨
      (∃ rs, s.results = some rs ∧ ∃ a ∈ rs, isEthAddressFullCI a = false))
    (hc : isSessionId c.sessionId = false ∨
      c.query.data.length < 2 ∨ 500 < c.query.data.length ∨
      isEthAddressFullCI c.clickedAddress = false ∨
      c.resultRank = none ∨
      (∃ q, c.resultRank = some q ∧ (q < 0 ∨ 99 < q))) :
    searchPOST s = (400, false) ∧ clickPOST c = (400, false) := by
  constructor
  · rcases searchPOST_cases s with hres | hres
    · exact hres
    · exfalso
      obtain ⟨v1, v2, v3, v4⟩ := searchPOST_accept_valid s hres
      rcases hs with h | h | h | ⟨rs, hrs, a, ha, hbad⟩
      · rw [v1] at h; cases h
      · omega
      · omega
      · rw [v4 rs hrs a ha] at hbad; cases hbad
  · rcases clickPOST_cases c with hres | hres
    · exact hres
    · exfalso
      obtain ⟨v1, v2, v3, v4, v5, v6⟩ := clickPOST_accept_valid c hres
      rcases hc with h | h | h | h | h | ⟨q, hq, hrange⟩
      · rw [v1] at h; cases h
      · omega
      · omega
      · rw [v4] at h; cases h
      · exact v5 h
      · obtain ⟨hq0, hq99⟩ := v6 q hq
        rcases hrange with h' | h'
        · exact absurd hq0 (not_le.mpr h')
        · exact absurd hq99 (not_le.mpr h')

theorem C8_validation_rejects_witness :
    searchPOST
      { sessionId := "short", query := "doge"
        results := some ["0x1111111111111111111111111111111111111111"]
        resultCount := 1, timestamp := 1 } = (400, false) ∧
    clickPOST
      { sessionId := "aaaaaaaaaaaaaaaaaaaaaaaaaaaaaaaaaaaaaaaaaaaaaaaaaaaaaaaaaaaaaaaa"
        query := "doge"
        clickedAddress := "0x1111111111111111111111111111111111111111"
        resultRank := some 150, resultScore := none
        timeToClickMs := none, timestamp := 1 } = (400, false) :=
  C8_validation_rejects _ _
    (Or.inl (by decide))
    (Or.inr (Or.inr (Or.inr (Or.inr (Or.inr ⟨150, rfl, Or.inr (by decide)⟩)))))

/-! ## Peer Recommender: `GET /api/recommendations/peers`
(src/unnamed/part_001)

The route's single SQL statement:
`similar_queries` — `SELECT DISTINCT query FROM search_events WHERE query %
$q AND similarity(query, $q) > 0.3 AND timestamp > NOW() - INTERVAL '30 days'
LIMIT 100`; `clicked_tokens` — clicks of the last 30 days whose query is in
`similar_queries`, grouped by `clicked_address`, with `COUNT(*) AS frequency`,
`ORDER BY frequency DESC LIMIT $limit`; the final `SELECT` divides each
frequency by `SUM(frequency) FROM clicked_tokens`, attaches a `reason`
depending on `frequency > 10`, `LEFT JOIN`s `token_search_index` with
`COALESCE` placeholders, and keeps rows `WHERE tsi.type = $type`.

`pg_trgm` text similarity is an external-store capability; it is abstracted
as a parameter `simFn : String → String → Rat`, with the `%` operator and the
explicit `similarity(...) > 0.3` condition modelled as the threshold test.
-/

/-- A `search_events` row (the columns this query reads). -/
structure SearchEv where
  query : String
  timestamp : Int
deriving DecidableEq

/-- A `click_events` row (the columns this query reads). -/
structure ClickEv where
  query : String
  clickedAddress : String
  timestamp : Int
deriving DecidableEq

/-- A `token_search_index` row (the side table mapping an address to its
asset type, name and symbol). -/
structure TsiRow where
  address : String
  type : String
  name : Option String
  symbol : Option String
deriving DecidableEq

/-- A returned recommendation (`PeerRecommendationData`). -/
structure PeerRec where
  address : String
  name : String
  symbol : String
  score : Rat
  reason : String
deriving DecidableEq

/-- Thirty days in milliseconds (`INTERVAL '30 days'`). -/
def thirtyDaysMs : Int := 30 * 86400000

/-- The similarity threshold `0.3`, written in lowest terms so that kernel
reduction of comparisons stays available. -/
def simThreshold : Rat := ⟨3, 10, by decide, by norm_num⟩

/-- The `similar_queries` CTE: distinct recent queries whose similarity to
the input exceeds the threshold, capped at 100. -/
def similarQueries (simFn : String → String → Rat) (events : List SearchEv)
    (q : String) (now : Int) : List String :=
  (((events.filter (fun e =>
      simThreshold < simFn e.query q && now - thirtyDaysMs < e.timestamp)).map
    SearchEv.query).dedup).take 100

/-- The `ORDER BY frequency DESC` preorder on `(address, frequency)` pairs. -/
def freqOrder (x y : String × Nat) : Prop := y.2 ≤ x.2

instance : DecidableRel freqOrder := fun x y => by
  unfold freqOrder; infer_instance

instance : IsTotal (String × Nat) freqOrder :=
  ⟨fun x y => by unfold freqOrder; omega⟩

instance : IsTrans (String × Nat) freqOrder :=
  ⟨fun x y z hxy hyz => by unfold freqOrder at *; omega⟩

/-- The `clicked_tokens` CTE: recent clicks whose query is one of the
similar queries, grouped by clicked address with their frequency, ordered by
frequency descending and truncated to the requested limit. -/
def clickedTokens (clicks : List ClickEv) (sims : List String) (now : Int)
    (lim : Nat) : List (String × Nat) :=
  let rel := clicks.filter (fun c =>
    sims.contains c.query && now - thirtyDaysMs < c.timestamp)
  let addrs := (rel.map ClickEv.clickedAddress).dedup
  let freqs := addrs.map
    (fun a => (a, rel.countP (fun c => c.clickedAddress == a)))
  (List.insertionSort freqOrder freqs).take lim

/-- The `LEFT JOIN token_search_index tsi ON tsi.address = ct.clicked_address`
lookup (`token_search_index.address` is a unique key). -/
def tsiLookup (tsi : List TsiRow) (a : String) : Option TsiRow :=
  tsi.find? (fun t => t.address == a)

/-- The `WHERE tsi.type = $type` predicate: an SQL comparison with the NULL
produced by an unmatched `LEFT JOIN` is not true, so unmapped addresses fail
the filter. -/
def typeMatches (tsi : List TsiRow) (type : String) (a : String) : Bool :=
  match tsiLookup tsi a with
  | some t => t.type == type
  | none => false

/-- The final `SELECT` of the peer-recommendation query, as a function of the
already-computed similar-query list: score normalisation by
`SUM(frequency) FROM clicked_tokens`, the `reason` CASE, the `COALESCE`
placeholders, and the type filter. -/
def peerRecsFrom (clicks : List ClickEv) (tsi : List TsiRow)
    (sims : List String) (type : String) (lim : Nat) (now : Int) :
    List PeerRec :=
  let ct := clickedTokens clicks sims now lim
  let total : Nat := (ct.map Prod.snd).sum
  (ct.filter (fun p => typeMatches tsi type p.1)).map (fun p =>
    { address := p.1
      name := ((tsiLookup tsi p.1).bind TsiRow.name).getD "Unknown Token"
      symbol := ((tsiLookup tsi p.1).bind TsiRow.symbol).getD "UNKNOWN"
      score := (p.2 : Rat) / (total : Rat)
      reason := if 10 < p.2 then
          "Popular with users who searched similar queries"
        else "Frequently clicked result" })

/-- The whole recommendation pipeline of `GET /api/recommendations/peers`. -/
def peerRecommendations (simFn : String → String → Rat)
    (searches : List SearchEv) (clicks : List ClickEv) (tsi : List TsiRow)
    (q : String) (type : String) (lim : Nat) (now : Int) : List PeerRec :=
  peerRecsFrom clicks tsi (similarQueries simFn searches q now) type lim now

/-- Every aggregated candidate has frequency at least 1: its address comes
from an actual click row of the relevant set. -/
lemma clickedTokens_freq_pos (clicks : List ClickEv) (sims : List String)
    (now : Int) (lim : Nat) :
    ∀ p ∈ clickedTokens clicks sims now lim, 1 ≤ p.2 := by
  intro p hp
  have h1 : p ∈ List.insertionSort freqOrder
      (((clicks.filter (fun c =>
          sims.contains c.query && now - thirtyDaysMs < c.timestamp)).map
        ClickEv.clickedAddress).dedup.map
        (fun a => (a, (clicks.filter (fun c =>
          sims.contains c.query && now - thirtyDaysMs < c.timestamp)).countP
            (fun c => c.clickedAddress == a)))) :=
    List.mem_of_mem_take hp
  have h2 := (List.perm_insertionSort freqOrder _).subset h1
  rcases List.mem_map.mp h2 with ⟨a, ha, hpa⟩
  rcases List.mem_map.mp (List.mem_dedup.mp ha) with ⟨c, hc, hca⟩
  have hpos : 0 < (clicks.filter (fun c =>
      sims.contains c.query && now - thirtyDaysMs < c.timestamp)).countP
        (fun c => c.clickedAddress == a) := by
    refine List.countP_pos_iff.mpr ⟨c, hc, ?_⟩
    simp [hca]
  subst hpa
  simpa using hpos

/-- Summing `frequency / t` over a candidate list gives the summed
frequencies over `t`. -/
lemma sum_map_div_freq (l : List (String × Nat)) (t : Rat) :
    (l.map (fun p => (p.2 : Rat) / t)).sum =
      (((l.map Prod.snd).sum : Nat) : Rat) / t := by
  induction l with
  | nil => simp
  | cons x xs ih =>
    simp only [List.map_cons, List.sum_cons, ih]
    push_cast
    rw [div_add_div_same]

/-! ### Claims C2 and C6 -/

/-- C2 counterexample: with one similar query, one click on a TOKEN-mapped
address and one click on an NFT-mapped address, a `type=TOKEN` call returns a
non-empty list whose scores sum to `1/2`, not 1: the normalising
`SUM(frequency)` ranges over **all** candidates of `clicked_tokens`, while the
`WHERE tsi.type = $type` filter afterwards drops the NFT candidate. -/
theorem C2_score_sum_counterexample :
    peerRecommendations (fun _ _ => 1)
        [⟨"doge", 900⟩]
        [⟨"doge", "0xa", 900⟩, ⟨"doge", "0xb", 900⟩]
        [⟨"0xa", "TOKEN", some "TokenA", some "TKA"⟩,
         ⟨"0xb", "NFT", some "NftB", some "NFB"⟩]
        "dog" "TOKEN" 5 1000 ≠ [] ∧
    ((peerRecommendations (fun _ _ => 1)
        [⟨"doge", 900⟩]
        [⟨"doge", "0xa", 900⟩, ⟨"doge", "0xb", 900⟩]
        [⟨"0xa", "TOKEN", some "TokenA", some "TKA"⟩,
         ⟨"0xb", "NFT", some "NftB", some "NFB"⟩]
        "dog" "TOKEN" 5 1000).map PeerRec.score).sum ≠ 1 := by
  have hval : peerRecommendations (fun _ _ => 1)
      [⟨"doge", 900⟩]
      [⟨"doge", "0xa", 900⟩, ⟨"doge", "0xb", 900⟩]
      [⟨"0xa", "TOKEN", some "TokenA", some "TKA"⟩,
       ⟨"0xb", "NFT", some "NftB", some "NFB"⟩]
      "dog" "TOKEN" 5 1000 =
      [{ address := "0xa", name := "TokenA", symbol := "TKA"
         score := ((1 : Nat) : Rat) / ((2 : Nat) : Rat)
         reason := "Frequently clicked result" }] := rfl
  rw [hval]
  refine ⟨by simp, ?_⟩
  simp only [List.map_cons, List.map_nil, List.sum_cons, List.sum_nil, add_zero]
  norm_num


/-- The final `SELECT` written without local bindings, for rewriting. -/
lemma peerRecsFrom_eq (clicks : List ClickEv) (tsi : List TsiRow)
    (sims : List String) (type : String) (lim : Nat) (now : Int) :
    peerRecsFrom clicks tsi sims type lim now =
      ((clickedTokens clicks sims now lim).filter
        (fun p => typeMatches tsi type p.1)).map (fun p =>
        { address := p.1
          name := ((tsiLookup tsi p.1).bind TsiRow.name).getD "Unknown Token"
          symbol := ((tsiLookup tsi p.1).bind TsiRow.symbol).getD "UNKNOWN"
          score := (p.2 : Rat) /
            ((((clickedTokens clicks sims now lim).map Prod.snd).sum : Nat) : Rat)
          reason := if 10 < p.2 then
              "Popular with users who searched similar queries"
            else "Frequently clicked result" }) := rfl

/-- C2 (amended): each returned candidate's score is its click frequency
divided by the sum of **all** `clicked_tokens` frequencies; the returned
scores therefore sum to exactly 1 when every aggregated candidate passes the
asset-type filter (and the candidate set is non-empty), while candidates
dropped by the filter leave the returned sum below 1; an empty candidate set
yields an empty list with no division performed. -/
theorem C2_score_normalisation (clicks : List ClickEv) (tsi : List TsiRow)
    (sims : List String) (type : String) (lim : Nat) (now : Int) :
    (∀ rec ∈ peerRecsFrom clicks tsi sims type lim now,
      ∃ p ∈ clickedTokens clicks sims now lim,
        rec.address = p.1 ∧
        rec.score = (p.2 : Rat) /
          ((((clickedTokens clicks sims now lim).map Prod.snd).sum : Nat) : Rat)) ∧
    ((∀ p ∈ clickedTokens clicks sims now lim,
        typeMatches tsi type p.1 = true) →
      clickedTokens clicks sims now lim ≠ [] →
      ((peerRecsFrom clicks tsi sims type lim now).map PeerRec.score).sum = 1) ∧
    (clickedTokens clicks sims now lim = [] →
      peerRecsFrom clicks tsi sims type lim now = []) := by
  refine ⟨?_, ?_, ?_⟩
  · intro rec hrec
    rw [peerRecsFrom_eq] at hrec
    rcases List.mem_map.mp hrec with ⟨p, hp, hmk⟩
    refine ⟨p, List.mem_of_mem_filter hp, ?_, ?_⟩
    · rw [← hmk]
    · rw [← hmk]
  · intro hall hne
    have hfe : (clickedTokens clicks sims now lim).filter
        (fun p => typeMatches tsi type p.1) =
        clickedTokens clicks sims now lim :=
      List.filter_eq_self.mpr hall
    rw [peerRecsFrom_eq, hfe, List.map_map]
    have hcomp : (PeerRec.score ∘ fun p : String × Nat =>
        ({ address := p.1
           name := ((tsiLookup tsi p.1).bind TsiRow.name).getD "Unknown Token"
           symbol := ((tsiLookup tsi p.1).bind TsiRow.symbol).getD "UNKNOWN"
           score := (p.2 : Rat) /
             ((((clickedTokens clicks sims now lim).map Prod.snd).sum : Nat) : Rat)
           reason := if 10 < p.2 then
               "Popular with users who searched similar queries"
             else "Frequently clicked result" } : PeerRec)) =
        (fun p : String × Nat => (p.2 : Rat) /
          ((((clickedTokens clicks sims now lim).map Prod.snd).sum : Nat) : Rat)) :=
      funext fun p => rfl
    rw [hcomp, sum_map_div_freq]
    have htot : 0 < ((clickedTokens clicks sims now lim).map Prod.snd).sum := by
      rcases List.exists_mem_of_ne_nil _ hne with ⟨p, hp⟩
      calc 0 < p.2 := clickedTokens_freq_pos clicks sims now lim p hp
        _ ≤ ((clickedTokens clicks sims now lim).map Prod.snd).sum :=
          List.single_le_sum (fun _ _ => Nat.zero_le _) _
            (List.mem_map_of_mem Prod.snd hp)
    exact div_self (Nat.cast_ne_zero.mpr htot.ne')
  · intro hct
    rw [peerRecsFrom_eq, hct]
    rfl

theorem C2_score_normalisation_witness :
    ((peerRecsFrom [⟨"doge", "0xa", 900⟩]
        [⟨"0xa", "TOKEN", some "TokenA", some "TKA"⟩]
        ["doge"] "TOKEN" 5 1000).map PeerRec.score).sum = 1 :=
  (C2_score_normalisation [⟨"doge", "0xa", 900⟩]
      [⟨"0xa", "TOKEN", some "TokenA", some "TKA"⟩]
      ["doge"] "TOKEN" 5 1000).2.1 (by decide) (by decide)

/-- C6 counterexample: with one recent click on an address that has **no**
`token_search_index` mapping, the frequency aggregation produces the
candidate `("0xa", 1)`, yet the returned recommendation list is empty — the
unmapped candidate is dropped by `WHERE tsi.type = $type` (NULL never equals
the requested type), not kept with placeholder name/symbol. -/
theorem C6_unmapped_dropped_counterexample :
    clickedTokens [⟨"doge", "0xa", 900⟩] ["doge"] 1000 5 = [("0xa", 1)] ∧
    tsiLookup [] "0xa" = none ∧
    peerRecommendations (fun _ _ => 1) [⟨"doge", 900⟩]
      [⟨"doge", "0xa", 900⟩] [] "dog" "TOKEN" 5 1000 = [] := by
  refine ⟨by decide, rfl, by decide⟩

/-- C6 (amended): candidates with no side-table mapping are dropped by the
asset-type filter (their NULL type never matches), so every returned
recommendation corresponds to a mapped row of the requested type; the
`COALESCE` placeholders `'Unknown Token'`/`'UNKNOWN'` apply only to mapped
candidates whose name or symbol column is missing. -/
theorem C6_type_filter_drops_unmapped (clicks : List ClickEv)
    (tsi : List TsiRow) (sims : List String) (type : String) (lim : Nat)
    (now : Int) :
    (∀ rec ∈ peerRecsFrom clicks tsi sims type lim now,
      ∃ t, tsiLookup tsi rec.address = some t ∧ t.type = type ∧
        rec.name = t.name.getD "Unknown Token" ∧
        rec.symbol = t.symbol.getD "UNKNOWN") ∧
    (∀ p ∈ clickedTokens clicks sims now lim,
      tsiLookup tsi p.1 = none →
      p.1 ∉ (peerRecsFrom clicks tsi sims type lim now).map PeerRec.address) := by
  have hmain : ∀ rec ∈ peerRecsFrom clicks tsi sims type lim now,
      ∃ t, tsiLookup tsi rec.address = some t ∧ t.type = type ∧
        rec.name = t.name.getD "Unknown Token" ∧
        rec.symbol = t.symbol.getD "UNKNOWN" := by
    intro rec hrec
    rw [peerRecsFrom_eq] at hrec
    rcases List.mem_map.mp hrec with ⟨p, hp, hmk⟩
    have hmatch : typeMatches tsi type p.1 = true := (List.mem_filter.mp hp).2
    unfold typeMatches at hmatch
    rcases hlook : tsiLookup tsi p.1 with _ | t
    · rw [hlook] at hmatch
      cases hmatch
    · rw [hlook] at hmatch
      refine ⟨t, ?_, by simpa using hmatch, ?_, ?_⟩
      · rw [← hmk]
        exact hlook
      · rw [← hmk]
        show ((tsiLookup tsi p.1).bind TsiRow.name).getD "Unknown Token" = _
        rw [hlook]
        rfl
      · rw [← hmk]
        show ((tsiLookup tsi p.1).bind TsiRow.symbol).getD "UNKNOWN" = _
        rw [hlook]
        rfl
  refine ⟨hmain, ?_⟩
  intro p hp hnone hmem
  rcases List.mem_map.mp hmem with ⟨rec, hrec, haddr⟩
  rcases hmain rec hrec with ⟨t, hlook, -, -, -⟩
  rw [haddr, hnone] at hlook
  cases hlook

theorem C6_type_filter_drops_unmapped_witness :
    ("0xb" : String) ∉ (peerRecsFrom
      [⟨"doge", "0xa", 900⟩, ⟨"doge", "0xb", 900⟩]
      [⟨"0xa", "TOKEN", some "TokenA", some "TKA"⟩]
      ["doge"] "TOKEN" 5 1000).map PeerRec.address :=
  (C6_type_filter_drops_unmapped
      [⟨"doge", "0xa", 900⟩, ⟨"doge", "0xb", 900⟩]
      [⟨"0xa", "TOKEN", some "TokenA", some "TKA"⟩]
      ["doge"] "TOKEN" 5 1000).2 ("0xb", 1) (by decide) (by decide)

/-! ## Trending Ranker, velocity variant: `trending_assets_view`
(src/unnamed/part_007)

`CREATE VIEW trending_assets_view AS SELECT address, asset_type,
COALESCE(symbol,'TOKEN') as symbol, COALESCE(name,'Token') as name,
COUNT(*) as total_searches, COUNT(CASE WHEN created_at > NOW() - INTERVAL
'24 hours' THEN 1 END) as recent_searches, COUNT(CASE WHEN created_at <=
NOW() - INTERVAL '24 hours' AND created_at > NOW() - INTERVAL '48 hours'
THEN 1 END) as previous_searches, CASE WHEN previous = 0 THEN 0 ELSE
(recent::FLOAT / NULLIF(previous, 0)) * 100 END as velocity_score
FROM trending_searches WHERE created_at > NOW() - INTERVAL '7 days'
GROUP BY address, asset_type, symbol, name
ORDER BY velocity_score DESC, total_searches DESC`.

Here `trending_searches` is the raw event log this view aggregates: the
setup script creates it append-only (one row per logged search).
-/

/-- A raw `trending_searches` event row as the view reads it. -/
structure TrendingSearchRow where
  address : String
  assetType : String
  symbol : Option String
  name : Option String
  createdAt : Int
deriving DecidableEq

/-- 24 hours in milliseconds. -/
def dayMs : Int := 86400000

/-- 7 days in milliseconds. -/
def weekMs : Int := 7 * 86400000

/-- The `GROUP BY address, asset_type, symbol, name` key. -/
def viewKey (r : TrendingSearchRow) :
    String × String × Option String × Option String :=
  (r.address, r.assetType, r.symbol, r.name)

/-- A row of `trending_assets_view`. -/
structure ViewRow where
  address : String
  assetType : String
  symbol : String
  name : String
  totalSearches : Nat
  recentSearches : Nat
  previousSearches : Nat
  velocityScore : Rat
deriving DecidableEq

/-- The `ORDER BY velocity_score DESC, total_searches DESC` preorder. -/
def viewOrder (a b : ViewRow) : Prop :=
  b.velocityScore < a.velocityScore ∨
    (a.velocityScore = b.velocityScore ∧ b.totalSearches ≤ a.totalSearches)

instance : DecidableRel viewOrder := fun a b => by
  unfold viewOrder; infer_instance

instance : IsTotal ViewRow viewOrder := by
  constructor
  intro a b
  rcases lt_trichotomy a.velocityScore b.velocityScore with h | h | h
  · exact Or.inr (Or.inl h)
  · rcases Nat.le_total b.totalSearches a.totalSearches with h' | h'
    · exact Or.inl (Or.inr ⟨h, h'⟩)
    · exact Or.inr (Or.inr ⟨h.symm, h'⟩)
  · exact Or.inl (Or.inl h)

instance : IsTrans ViewRow viewOrder := by
  constructor
  intro a b c hab hbc
  rcases hab with h1 | ⟨h1, h1'⟩ <;> rcases hbc with h2 | ⟨h2, h2'⟩
  · exact Or.inl (h2.trans h1)
  · exact Or.inl (h2 ▸ h1)
  · exact Or.inl (h2.trans_eq h1.symm)
  · exact Or.inr ⟨h1.trans h2, Nat.le_trans h2' h1'⟩

/-- The `trending_assets_view` query over the raw event table, at clock
reading `now`. -/
def trendingAssetsView (rows : List TrendingSearchRow) (now : Int) :
    List ViewRow :=
  let wnd := rows.filter (fun r => now - weekMs < r.createdAt)
  let keys := (wnd.map viewKey).dedup
  let grouped : List ViewRow := keys.map (fun k =>
    let g := wnd.filter (fun r => viewKey r == k)
    let recent := g.countP (fun r => now - dayMs < r.createdAt)
    let previous := g.countP (fun r =>
      r.createdAt ≤ now - dayMs && now - 2 * dayMs < r.createdAt)
    { address := k.1
      assetType := k.2.1
      symbol := (k.2.2.1).getD "TOKEN"
      name := (k.2.2.2).getD "Token"
      totalSearches := g.length
      recentSearches := recent
      previousSearches := previous
      velocityScore := if previous = 0 then 0
        else ((recent : Rat) / (previous : Rat)) * 100 })
  List.insertionSort viewOrder grouped

/-- The view written without local bindings, for rewriting. -/
lemma trendingAssetsView_eq (rows : List TrendingSearchRow) (now : Int) :
    trendingAssetsView rows now = List.insertionSort viewOrder
      ((((rows.filter (fun r => now - weekMs < r.createdAt)).map
          viewKey).dedup).map (fun k =>
        { address := k.1
          assetType := k.2.1
          symbol := (k.2.2.1).getD "TOKEN"
          name := (k.2.2.2).getD "Token"
          totalSearches := ((rows.filter (fun r =>
            now - weekMs < r.createdAt)).filter (fun r => viewKey r == k)).length
          recentSearches := ((rows.filter (fun r =>
            now - weekMs < r.createdAt)).filter (fun r =>
              viewKey r == k)).countP (fun r => now - dayMs < r.createdAt)
          previousSearches := ((rows.filter (fun r =>
            now - weekMs < r.createdAt)).filter (fun r =>
              viewKey r == k)).countP (fun r =>
                r.createdAt ≤ now - dayMs && now - 2 * dayMs < r.createdAt)
          velocityScore := if ((rows.filter (fun r =>
              now - weekMs < r.createdAt)).filter (fun r =>
                viewKey r == k)).countP (fun r =>
                  r.createdAt ≤ now - dayMs && now - 2 * dayMs < r.createdAt) = 0
            then 0
            else ((((rows.filter (fun r =>
              now - weekMs < r.createdAt)).filter (fun r =>
                viewKey r == k)).countP (fun r =>
                  now - dayMs < r.createdAt) : Nat) : Rat) /
              ((((rows.filter (fun r =>
                now - weekMs < r.createdAt)).filter (fun r =>
                  viewKey r == k)).countP (fun r =>
                    r.createdAt ≤ now - dayMs &&
                      now - 2 * dayMs < r.createdAt) : Nat) : Rat) * 100 })) :=
  rfl

/-- C3: every row of the velocity view belongs to a group key drawn from the
trailing 7-day window, its `recent_searches` counts that key's raw events in
the trailing 24h window, its `previous_searches` counts that key's raw events
in the preceding 24h-to-48h window, its velocity score is 0 when
`previous_searches = 0` and `(recent / previous) * 100` otherwise, events
older than 7 days contribute to no count, and the view is ordered by
`velocity_score` descending then `total_searches` descending. -/
theorem C3_velocity_view (rows : List TrendingSearchRow) (now : Int)
    (v : ViewRow) (hv : v ∈ trendingAssetsView rows now) :
    List.Pairwise viewOrder (trendingAssetsView rows now) ∧
    ∃ k ∈ ((rows.filter (fun r => now - weekMs < r.createdAt)).map
        viewKey).dedup,
      v.recentSearches = rows.countP (fun r =>
        viewKey r == k && now - dayMs < r.createdAt) ∧
      v.previousSearches = rows.countP (fun r =>
        viewKey r == k &&
          (r.createdAt ≤ now - dayMs && now - 2 * dayMs < r.createdAt)) ∧
      v.totalSearches = rows.countP (fun r =>
        viewKey r == k && now - weekMs < r.createdAt) ∧
      v.velocityScore = (if v.previousSearches = 0 then 0
        else ((v.recentSearches : Rat) / (v.previousSearches : Rat)) * 100) := by
  constructor
  · exact List.sorted_insertionSort viewOrder _
  · rw [trendingAssetsView_eq] at hv
    have hv' := (List.perm_insertionSort viewOrder _).subset hv
    rcases List.mem_map.mp hv' with ⟨k, hk, hmk⟩
    subst hmk
    refine ⟨k, hk, ?_, ?_, ?_, rfl⟩
    · show ((rows.filter (fun r => now - weekMs < r.createdAt)).filter
          (fun r => viewKey r == k)).countP (fun r =>
            now - dayMs < r.createdAt) = _
      rw [List.countP_filter, List.countP_filter]
      refine List.countP_congr fun r _ => ?_
      simp only [Bool.and_eq_true, decide_eq_true_eq]
      constructor
      · rintro ⟨⟨h1, h2⟩, h3⟩
        exact ⟨h2, h1⟩
      · rintro ⟨h2, h1⟩
        refine ⟨⟨h1, h2⟩, ?_⟩
        unfold weekMs dayMs at *
        omega
    · show ((rows.filter (fun r => now - weekMs < r.createdAt)).filter
          (fun r => viewKey r == k)).countP (fun r =>
            r.createdAt ≤ now - dayMs && now - 2 * dayMs < r.createdAt) = _
      rw [List.countP_filter, List.countP_filter]
      refine List.countP_congr fun r _ => ?_
      simp only [Bool.and_eq_true, decide_eq_true_eq]
      constructor
      · rintro ⟨⟨h1, h2⟩, h3⟩
        exact ⟨h2, h1⟩
      · rintro ⟨h2, h1⟩
        refine ⟨⟨h1, h2⟩, ?_⟩
        unfold weekMs dayMs at *
        omega
    · show ((rows.filter (fun r => now - weekMs < r.createdAt)).filter
          (fun r => viewKey r == k)).length = _
      rw [← List.countP_eq_length_filter, List.countP_filter]

theorem C3_velocity_view_witness :
    List.Pairwise viewOrder
      (trendingAssetsView [⟨"0xa", "TOKEN", none, none, 900⟩] 1000) :=
  (C3_velocity_view [⟨"0xa", "TOKEN", none, none, 900⟩] 1000
    { address := "0xa", assetType := "TOKEN", symbol := "TOKEN", name := "Token"
      totalSearches := 1, recentSearches := 1, previousSearches := 0
      velocityScore := 0 }
    (by decide)).1
